import Mathlib

/-!
Shallow embedding of `it_magazine.py`: the advertisement lifecycle
(`Advert`, the role-scoped stores of `MarketingDeptStaff`, `Editor`,
`ProcessingCentreStaff`, staff construction of `ITMagazineStaff.__init__`)
and the command queue (`CommandInvoker.execute_commands`).

Python's mutable objects are rendered by explicit state passing: a method
that may raise returns `Except err α` together with the state it leaves
behind at the point of return or raise.  Python `dict`s (which preserve
insertion order) are rendered as association lists; an advert held by
reference is rendered by returning the possibly-mutated advert value
alongside the new store state.
-/

namespace ITMagazine

/-- The `Advert` record of `it_magazine.py` (fields of `Advert.__init__`). -/
structure Advert where
  advert_id : String
  client_name : String
  size : String
  placement : String
  publication_date : String
  status : String
deriving Repr, DecidableEq

/-- Python truthiness of an optional-string argument with default `None`:
`if size:` is true exactly for a non-`None`, non-empty string. -/
def truthy : Option String → Bool
  | none => false
  | some s => s ≠ ""

/-- `Advert.update_details`: each of `size`, `placement`,
`publication_date` is written only when the argument is truthy. -/
def Advert.update_details (a : Advert)
    (size placement publication_date : Option String) : Advert :=
  let a1 := if truthy size then { a with size := size.getD a.size } else a
  let a2 := if truthy placement
            then { a1 with placement := placement.getD a1.placement } else a1
  if truthy publication_date
  then { a2 with publication_date := publication_date.getD a2.publication_date }
  else a2

/-- `Advert.cancel_advert`: unconditionally sets `status` to `"Cancelled"`. -/
def Advert.cancel_advert (a : Advert) : Advert :=
  { a with status := "Cancelled" }

/-! ### Association lists standing for Python dicts -/

/-- Lookup in an insertion-ordered association list (Python `d[k]` / `k in d`). -/
def alist_lookup {α : Type} : List (String × α) → String → Option α
  | [], _ => none
  | (k, v) :: rest, key => if k = key then some v else alist_lookup rest key

/-- Python `d[k] = v`: overwrite in place when the key exists, else append. -/
def alist_set {α : Type} : List (String × α) → String → α → List (String × α)
  | [], key, v => [(key, v)]
  | (k, w) :: rest, key, v =>
      if k = key then (key, v) :: rest else (k, w) :: alist_set rest key v

/-! ### The command invoker (`CommandInvoker`)

A queued command is anything with a zero-argument `execute()` acting on
some world state: it returns either a result or an error, together with
the state it leaves behind (an exception may leave earlier mutations
applied).  `execute_commands` renders the `while self.command_queue:`
loop with `pop(0)` before `execute()`: it returns the collected results
on success, or the first error, together with the not-yet-executed tail
of the queue and the final state.  The local `results` list of the
Python code is lost when an exception propagates, so the error branch
carries no results. -/

def Cmd (σ ρ ε : Type) : Type := σ → Except ε ρ × σ

def execute_commands {σ ρ ε : Type} :
    List (Cmd σ ρ ε) → σ → Except ε (List ρ) × List (Cmd σ ρ ε) × σ
  | [], s => (Except.ok [], [], s)
  | c :: rest, s =>
      match c s with
      | (Except.ok r, s') =>
          match execute_commands rest s' with
          | (Except.ok rs, q', s'') => (Except.ok (r :: rs), q', s'')
          | (Except.error e, q', s'') => (Except.error e, q', s'')
      | (Except.error e, s') => (Except.error e, rest, s')

/-- Specification-side description of a successful FIFO batch run: the
commands execute one at a time in queue order, each from the state the
previous one left, and the results are collected in execution order. -/
inductive RunsFIFO {σ ρ ε : Type} : List (Cmd σ ρ ε) → σ → List ρ → σ → Prop where
  | nil (s : σ) : RunsFIFO [] s [] s
  | cons {c : Cmd σ ρ ε} {rest : List (Cmd σ ρ ε)} {s s₁ s₂ : σ} {r : ρ} {rs : List ρ}
      (hc : c s = (Except.ok r, s₁)) (h : RunsFIFO rest s₁ rs s₂) :
      RunsFIFO (c :: rest) s (r :: rs) s₂

/-! ### Staff construction (`ITMagazineStaff.__init__`)

The class-level registry `_used_staff_ids` is passed explicitly; Python
`str(staff_id)` on an `int` is `toString` on `Int` (a leading minus sign
counts towards the length, exactly as in Python). -/

structure ITMagazineStaff where
  staff_id : Int
  salary : Int
  dept : String
deriving Repr, DecidableEq

def valid_departments : List String := ["Marketing", "Editing", "Processing Centre"]

def ITMagazineStaff.init (staff_id salary : Int) (dept : String)
    (used_staff_ids : List Int) : Except String ITMagazineStaff × List Int :=
  if (toString staff_id).length ≠ 6 then
    (Except.error "Staff ID must be a 6-digit integer.", used_staff_ids)
  else if ¬ (10000 ≤ salary ∧ salary ≤ 1000000) then
    (Except.error "Salary must be between 10,000 and 1,000,000.", used_staff_ids)
  else if dept ∉ valid_departments then
    (Except.error "Department must be one of [Marketing, Editing, Processing Centre].",
     used_staff_ids)
  else if staff_id ∈ used_staff_ids then
    (Except.error ("Staff ID " ++ toString staff_id ++ " is already in use."),
     used_staff_ids)
  else
    (Except.ok ⟨staff_id, salary, dept⟩, staff_id :: used_staff_ids)

/-! ### Date validation (`MarketingDeptStaff._is_valid_date`)

`datetime.strptime(s, "%Y-%m-%d")`: the format compiles to the regex
`\d\d\d\d` for `%Y`, `1[0-2]|0[1-9]|[1-9]` for `%m` and
`3[01]|[12]\d|0[1-9]|[1-9]` for `%d`, the whole string must be consumed,
and `datetime` construction then requires `1 <= year` and the day to fit
the month (with leap years).  Since a two-digit month alternative is
followed by a literal `-` that a digit can never satisfy, a committed
first-alternative parse agrees with the regex engine on every input. -/

def digitVal (c : Char) : Nat := c.toNat - 48

def parse_year : List Char → Option (Nat × List Char)
  | a :: b :: c :: d :: rest =>
      if a.isDigit && b.isDigit && c.isDigit && d.isDigit then
        some (1000 * digitVal a + 100 * digitVal b + 10 * digitVal c + digitVal d, rest)
      else none
  | _ => none

def parse_month : List Char → Option (Nat × List Char)
  | c1 :: c2 :: rest =>
      if c1 = '1' ∧ ('0' ≤ c2 ∧ c2 ≤ '2') then some (10 + digitVal c2, rest)
      else if c1 = '0' ∧ ('1' ≤ c2 ∧ c2 ≤ '9') then some (digitVal c2, rest)
      else if '1' ≤ c1 ∧ c1 ≤ '9' then some (digitVal c1, c2 :: rest)
      else none
  | [c1] => if '1' ≤ c1 ∧ c1 ≤ '9' then some (digitVal c1, []) else none
  | [] => none

def parse_day : List Char → Option (Nat × List Char)
  | c1 :: c2 :: rest =>
      if c1 = '3' ∧ ('0' ≤ c2 ∧ c2 ≤ '1') then some (30 + digitVal c2, rest)
      else if ('1' ≤ c1 ∧ c1 ≤ '2') ∧ c2.isDigit then
        some (10 * digitVal c1 + digitVal c2, rest)
      else if c1 = '0' ∧ ('1' ≤ c2 ∧ c2 ≤ '9') then some (digitVal c2, rest)
      else if '1' ≤ c1 ∧ c1 ≤ '9' then some (digitVal c1, c2 :: rest)
      else none
  | [c1] => if '1' ≤ c1 ∧ c1 ≤ '9' then some (digitVal c1, []) else none
  | [] => none

def is_leap_year (y : Nat) : Bool := y % 4 = 0 ∧ (y % 100 ≠ 0 ∨ y % 400 = 0)

def days_in_month (y m : Nat) : Nat :=
  if m = 2 then (if is_leap_year y then 29 else 28)
  else if m = 4 ∨ m = 6 ∨ m = 9 ∨ m = 11 then 30
  else 31

def is_valid_date (s : String) : Bool :=
  match parse_year s.toList with
  | some (y, '-' :: r1) =>
      (match parse_month r1 with
       | some (m, '-' :: r2) =>
           (match parse_day r2 with
            | some (d, []) => decide (1 ≤ y) && decide (d ≤ days_in_month y m)
            | _ => false)
       | _ => false)
  | _ => false

/-! ### The marketing store (`MarketingDeptStaff`) -/

abbrev AdvertMap := List (String × Advert)

namespace MarketingDeptStaff

def create_advert (adverts : AdvertMap)
    (advert_id client_name size placement publication_date : String) :
    Except String Advert × AdvertMap :=
  if advert_id = "" then
    (Except.error "Advert ID cannot be empty.", adverts)
  else if client_name = "" then
    (Except.error "Client name cannot be empty.", adverts)
  else if size ∉ ["Full Page", "Half Page", "Quarter Page"] then
    (Except.error ("Invalid size: " ++ size ++
       ". Must be one of [Full Page, Half Page, Quarter Page]."), adverts)
  else if placement = "" then
    (Except.error "Placement cannot be empty.", adverts)
  else if ¬ is_valid_date publication_date then
    (Except.error ("Invalid publication date: " ++ publication_date ++
       ". Must be in YYYY-MM-DD format."), adverts)
  else if (alist_lookup adverts advert_id).isSome then
    (Except.error "Advert ID already exists.", adverts)
  else
    let advert : Advert :=
      ⟨advert_id, client_name, size, placement, publication_date, "Pending"⟩
    (Except.ok advert, adverts ++ [(advert_id, advert)])

def update_advert (adverts : AdvertMap) (advert_id : String)
    (size placement publication_date : Option String) :
    Except String String × AdvertMap :=
  match alist_lookup adverts advert_id with
  | none => (Except.error "Advert ID does not exist.", adverts)
  | some ad =>
      (Except.ok ("Advert " ++ advert_id ++ " updated successfully."),
       alist_set adverts advert_id (ad.update_details size placement publication_date))

def cancel_advert (adverts : AdvertMap) (advert_id : String) :
    Except String String × AdvertMap :=
  match alist_lookup adverts advert_id with
  | none => (Except.error "Advert ID does not exist.", adverts)
  | some ad =>
      (Except.ok ("Advert " ++ advert_id ++ " cancelled successfully."),
       alist_set adverts advert_id ad.cancel_advert)

end MarketingDeptStaff

/-! ### The editor store (`Editor`)

`magazine_issues` maps an issue date to the ordered sequence of adverts.
Python mutates the first advert of the sequence whose id matches
(`next(...)` returns the first match); the append path appends the
advert and then sets its status, and since list entry and caller hold
the same reference, both see `"Approved"` — rendered by appending and
returning the updated advert value. -/

abbrev IssueMap := List (String × List Advert)

def update_first : List Advert → String → (Advert → Advert) → List Advert
  | [], _, _ => []
  | ad :: rest, aid, f =>
      if ad.advert_id = aid then f ad :: rest else ad :: update_first rest aid f

namespace Editor

def update_advert_in_issue (magazine_issues : IssueMap) (advert : Advert)
    (issue_date : String) : Except String Unit × IssueMap × Advert :=
  if advert.status = "Cancelled" then
    (Except.error "Cannot add or update a cancelled advert in the magazine.",
     magazine_issues, advert)
  else
    let issues1 := if (alist_lookup magazine_issues issue_date).isSome
                   then magazine_issues
                   else alist_set magazine_issues issue_date []
    let seq := (alist_lookup issues1 issue_date).getD []
    match seq.find? (fun ad => ad.advert_id == advert.advert_id) with
    | some _ =>
        (Except.ok (),
         alist_set issues1 issue_date
           (update_first seq advert.advert_id
             (fun ex => ex.update_details (some advert.size) (some advert.placement)
                (some advert.publication_date))),
         advert)
    | none =>
        let advert' := { advert with status := "Approved" }
        (Except.ok (), alist_set issues1 issue_date (seq ++ [advert']), advert')

end Editor

/-! ### The processing centre store (`ProcessingCentreStaff`) -/

namespace ProcessingCentreStaff

def store_advert (stored_adverts : List Advert) (advert : Advert) :
    Except String Unit × List Advert × Advert :=
  if advert.status ≠ "Approved" then
    (Except.error "Only approved adverts can be stored.", stored_adverts, advert)
  else
    (Except.ok (), stored_adverts ++ [advert], advert)

end ProcessingCentreStaff

/-! ### Concrete commands over a counter state, for instantiating the
invoker theorems: `cmd_incr` returns the current counter and increments
it, `cmd_fail` raises without touching the state. -/

def cmd_incr : Cmd Nat Nat String := fun n => (Except.ok n, n + 1)

def cmd_fail : Cmd Nat Nat String := fun n => (Except.error "boom", n)

/-! ### Concrete adverts (the worked example of `it_magazine.py`) -/

def advert_AD001 : Advert :=
  ⟨"AD001", "Client A", "Full Page", "Back Cover", "2025-01-15", "Pending"⟩

def advert_AD001_approved : Advert := { advert_AD001 with status := "Approved" }

def advert_AD001_cancelled : Advert := { advert_AD001 with status := "Cancelled" }

def advert_AD001_published : Advert := { advert_AD001 with status := "Published" }

/-- The disjunction of the six rejection conditions of `create_advert`,
written order-independently (the code tests them in sequence). -/
def create_advert_invalid (adverts : AdvertMap)
    (advert_id client_name size placement publication_date : String) : Prop :=
  advert_id = "" ∨ client_name = ""
  ∨ size ∉ ["Full Page", "Half Page", "Quarter Page"]
  ∨ placement = "" ∨ is_valid_date publication_date = false
  ∨ (alist_lookup adverts advert_id).isSome = true

instance (adverts : AdvertMap) (advert_id client_name size placement publication_date : String) :
    Decidable (create_advert_invalid adverts advert_id client_name size placement
      publication_date) := by
  unfold create_advert_invalid
  infer_instance

/-! ## Helper lemmas -/

theorem alist_lookup_set_self {α : Type} (m : List (String × α)) (k : String) (v : α) :
    alist_lookup (alist_set m k v) k = some v := by
  induction m with
  | nil => simp [alist_set, alist_lookup]
  | cons hd tl ih =>
      obtain ⟨k', w⟩ := hd
      by_cases h : k' = k
      · simp [alist_set, alist_lookup, h]
      · simp [alist_set, alist_lookup, h, ih]

theorem alist_set_set {α : Type} (m : List (String × α)) (k : String) (a b : α) :
    alist_set (alist_set m k a) k b = alist_set m k b := by
  induction m with
  | nil => simp [alist_set]
  | cons hd tl ih =>
      obtain ⟨k', w⟩ := hd
      by_cases h : k' = k
      · simp [alist_set, h]
      · simp [alist_set, h, ih]

theorem execute_commands_cons_ok {σ ρ ε : Type} {c : Cmd σ ρ ε}
    {rest : List (Cmd σ ρ ε)} {s s₁ : σ} {r : ρ}
    (h : c s = (Except.ok r, s₁)) :
    execute_commands (c :: rest) s =
      match execute_commands rest s₁ with
      | (Except.ok rs, q', s'') => (Except.ok (r :: rs), q', s'')
      | (Except.error e, q', s'') => (Except.error e, q', s'') := by
  rw [execute_commands, h]

theorem execute_commands_cons_err {σ ρ ε : Type} {c : Cmd σ ρ ε}
    {rest : List (Cmd σ ρ ε)} {s s₁ : σ} {e : ε}
    (h : c s = (Except.error e, s₁)) :
    execute_commands (c :: rest) s = (Except.error e, rest, s₁) := by
  rw [execute_commands, h]

theorem update_details_eq (a : Advert) (x y z : Option String) :
    a.update_details x y z =
      { a with
        size := if truthy x then x.getD a.size else a.size,
        placement := if truthy y then y.getD a.placement else a.placement,
        publication_date := if truthy z then z.getD a.publication_date
                            else a.publication_date } := by
  simp only [Advert.update_details]
  split <;> split <;> split <;> rfl

theorem update_details_advert_id (a : Advert) (x y z : Option String) :
    (a.update_details x y z).advert_id = a.advert_id := by
  rw [update_details_eq]

theorem update_details_client_name (a : Advert) (x y z : Option String) :
    (a.update_details x y z).client_name = a.client_name := by
  rw [update_details_eq]

theorem update_details_status (a : Advert) (x y z : Option String) :
    (a.update_details x y z).status = a.status := by
  rw [update_details_eq]

theorem update_first_length (ads : List Advert) (aid : String) (f : Advert → Advert) :
    (update_first ads aid f).length = ads.length := by
  induction ads with
  | nil => rfl
  | cons ad rest ih =>
      by_cases h : ad.advert_id = aid <;> simp [update_first, h, ih]

theorem update_first_map_status (ads : List Advert) (aid : String) (f : Advert → Advert)
    (hf : ∀ a, (f a).status = a.status) :
    (update_first ads aid f).map Advert.status = ads.map Advert.status := by
  induction ads with
  | nil => rfl
  | cons ad rest ih =>
      by_cases h : ad.advert_id = aid <;> simp [update_first, h, ih, hf]

/-- Looking up `issue_date` after the `if issue_date not in ...` guard
of `update_advert_in_issue` yields the old sequence, or `[]` when the
key was absent. -/
theorem ensure_key_lookup (issues : IssueMap) (d : String) :
    alist_lookup
        (if (alist_lookup issues d).isSome then issues else alist_set issues d []) d
      = some ((alist_lookup issues d).getD []) := by
  cases h : alist_lookup issues d with
  | some v => simp [h]
  | none => simp [h, alist_lookup_set_self]

/-! ## Claims about the command invoker -/

/-- C2: on any queue whose commands all succeed, `execute_commands`
runs them strictly in the order they were enqueued (FIFO), each from
the state the previous command left, returns exactly the list of their
results in execution order, and leaves the queue empty afterwards; on
the empty queue it is a no-op returning the empty results sequence
rather than failing.  `RunsFIFO` is the specification-side rendering of
an all-successful in-order run. -/
theorem C2_fifo_execution {σ ρ ε : Type} :
    (∀ s : σ, execute_commands ([] : List (Cmd σ ρ ε)) s = (Except.ok [], [], s))
    ∧ ∀ (q : List (Cmd σ ρ ε)) (s : σ) (rs : List ρ) (q' : List (Cmd σ ρ ε)) (s' : σ),
        execute_commands q s = (Except.ok rs, q', s') ↔ q' = [] ∧ RunsFIFO q s rs s' := by
  refine ⟨fun s => rfl, ?_⟩
  intro q
  induction q with
  | nil =>
    intro s rs q' s'
    constructor
    · intro h
      simp only [execute_commands, Prod.mk.injEq, Except.ok.injEq] at h
      obtain ⟨h1, h2, h3⟩ := h
      subst h1; subst h2; subst h3
      exact ⟨rfl, RunsFIFO.nil s⟩
    · rintro ⟨rfl, hrun⟩
      cases hrun
      rfl
  | cons c rest ih =>
    intro s rs q' s'
    constructor
    · intro h
      rcases hcs : c s with ⟨er, s₁⟩
      cases er with
      | error e =>
        rw [execute_commands_cons_err hcs] at h
        simp at h
      | ok r =>
        rw [execute_commands_cons_ok hcs] at h
        rcases hrest : execute_commands rest s₁ with ⟨er₂, q₂, s₂⟩
        rw [hrest] at h
        cases er₂ with
        | error e => simp at h
        | ok rs₂ =>
          simp only [Prod.mk.injEq, Except.ok.injEq] at h
          obtain ⟨rfl, rfl, rfl⟩ := h
          obtain ⟨hq, hrun⟩ := (ih _ _ _ _).mp hrest
          exact ⟨hq, RunsFIFO.cons hcs hrun⟩
    · rintro ⟨rfl, hrun⟩
      cases hrun with
      | cons hc htail =>
        rw [execute_commands_cons_ok hc, (ih _ _ _ _).mpr ⟨rfl, htail⟩]

/-- C1 (amended): on a queue `pre ++ ck :: post` where the commands of
`pre` all succeed and `ck` then fails, `execute_commands` stops at
`ck`: the state effects of `pre` remain applied (the run reaches the
state `pre` produced, and ends in the state `ck` left at the raise),
`ck`'s failure propagates unchanged, `ck` itself is consumed, and the
commands of `post` are left in the queue.  The results collected for
`pre` are discarded: the propagated failure carries no results. -/
theorem C1_failure_stops_run {σ ρ ε : Type} (pre : List (Cmd σ ρ ε)) (ck : Cmd σ ρ ε)
    (post : List (Cmd σ ρ ε)) (s s₁ s₂ : σ) (rs : List ρ) (e : ε)
    (hpre : execute_commands pre s = (Except.ok rs, [], s₁))
    (hk : ck s₁ = (Except.error e, s₂)) :
    execute_commands (pre ++ ck :: post) s = (Except.error e, post, s₂) := by
  induction pre generalizing s rs with
  | nil =>
    simp only [execute_commands, Prod.mk.injEq, Except.ok.injEq] at hpre
    obtain ⟨-, -, hs⟩ := hpre
    subst hs
    simpa using execute_commands_cons_err hk
  | cons c pre ih =>
    rcases hcs : c s with ⟨er, t⟩
    cases er with
    | error e' =>
      rw [execute_commands_cons_err hcs] at hpre
      simp at hpre
    | ok r =>
      rw [execute_commands_cons_ok hcs] at hpre
      rcases hrest : execute_commands pre t with ⟨er₂, q₂, s₃⟩
      rw [hrest] at hpre
      cases er₂ with
      | error e2 => simp at hpre
      | ok rs₂ =>
        simp only [Prod.mk.injEq, Except.ok.injEq] at hpre
        obtain ⟨h1, h2, h3⟩ := hpre
        subst h2; subst h3
        rw [List.cons_append, execute_commands_cons_ok hcs, ih t rs₂ hrest]

/-- Witness for C1 at a concrete three-command queue over a counter:
the first command succeeds (incrementing the counter), the second
fails, and the third is left in the queue. -/
theorem C1_failure_stops_run_witness :
    execute_commands [cmd_incr, cmd_fail, cmd_incr] 0 =
      (Except.error "boom", [cmd_incr], 1) :=
  C1_failure_stops_run [cmd_incr] cmd_fail [cmd_incr] 0 1 1 [0] "boom" rfl rfl

/-- C1 as stated is false at a concrete input: on the queue
`[cmd_incr, cmd_fail]` run from counter `0`, the first command's effect
remains applied (final state `1`), the failure propagates and both
commands are consumed — but the result of the first command (`[0]`) is
not returned to the caller: the results channel holds the error. -/
theorem C1_counterexample :
    execute_commands [cmd_incr, cmd_fail] 0 = (Except.error "boom", [], 1)
    ∧ (execute_commands [cmd_incr, cmd_fail] 0).1 ≠ Except.ok [0] :=
  ⟨rfl, fun h => Except.noConfusion h⟩

/-! ## Claims about the editor, processing and marketing stores -/

/-- C3: for every cancelled advert and every issue date, the editor's
`update_advert_in_issue` fails with the invalid-transition error and
leaves the issues mapping exactly as it was — no issue sequence gains
or loses an entry, no issue-date key is created — and the advert is
returned unchanged. -/
theorem C3_cancelled_advert_rejected (issues : IssueMap) (advert : Advert)
    (issue_date : String) (h : advert.status = "Cancelled") :
    Editor.update_advert_in_issue issues advert issue_date =
      (Except.error "Cannot add or update a cancelled advert in the magazine.",
       issues, advert) := by
  simp [Editor.update_advert_in_issue, h]

/-- Witness for C3: placing the cancelled AD001 advert into the issue
of 2025-03-01 fails and leaves the one-issue mapping untouched. -/
theorem C3_cancelled_advert_rejected_witness :
    Editor.update_advert_in_issue [("2025-03-01", [])] advert_AD001_cancelled "2025-03-01"
      = (Except.error "Cannot add or update a cancelled advert in the magazine.",
         [("2025-03-01", [])], advert_AD001_cancelled) :=
  C3_cancelled_advert_rejected [("2025-03-01", [])] advert_AD001_cancelled "2025-03-01" rfl

/-- C5: `store_advert` fails with the invalid-transition error and
leaves the stored sequence and the advert unchanged exactly when the
advert's status is not `"Approved"` (so for Pending, Cancelled and
Published); for an Approved advert it appends the advert to the stored
sequence exactly once per call and leaves its status unchanged.  The
second conjunct records that a repeated store of the same advert is not
deduplicated: each call grows the advert's multiplicity by one. -/
theorem C5_store_advert_characterization (stored : List Advert) (advert : Advert) :
    (ProcessingCentreStaff.store_advert stored advert =
      if advert.status = "Approved"
      then (Except.ok (), stored ++ [advert], advert)
      else (Except.error "Only approved adverts can be stored.", stored, advert))
    ∧ (advert.status = "Approved" →
        (ProcessingCentreStaff.store_advert stored advert).2.1.count advert
          = stored.count advert + 1) := by
  constructor
  · by_cases h : advert.status = "Approved" <;>
      simp [ProcessingCentreStaff.store_advert, h]
  · intro h
    simp [ProcessingCentreStaff.store_advert, h]

/-- Witness for C5: storing the approved AD001 advert into a sequence
already holding it appends a second copy rather than deduplicating. -/
theorem C5_store_advert_witness :
    (ProcessingCentreStaff.store_advert [advert_AD001_approved] advert_AD001_approved).2.1.count
        advert_AD001_approved
      = [advert_AD001_approved].count advert_AD001_approved + 1 :=
  (C5_store_advert_characterization [advert_AD001_approved] advert_AD001_approved).2 rfl

/-- C9: `cancel_advert` fails with the not-found error and changes
nothing when the id is absent; when the id is present it sets that
advert's status to `"Cancelled"` unconditionally, whatever the current
status, and it is idempotent: cancelling again succeeds and leaves the
store exactly as after the first cancellation. -/
theorem C9_cancel_advert (adverts : AdvertMap) (advert_id : String) :
    (alist_lookup adverts advert_id = none →
       MarketingDeptStaff.cancel_advert adverts advert_id
         = (Except.error "Advert ID does not exist.", adverts))
    ∧ ∀ ad, alist_lookup adverts advert_id = some ad →
        MarketingDeptStaff.cancel_advert adverts advert_id
          = (Except.ok ("Advert " ++ advert_id ++ " cancelled successfully."),
             alist_set adverts advert_id { ad with status := "Cancelled" })
        ∧ alist_lookup (MarketingDeptStaff.cancel_advert adverts advert_id).2 advert_id
            = some { ad with status := "Cancelled" }
        ∧ (MarketingDeptStaff.cancel_advert
              (MarketingDeptStaff.cancel_advert adverts advert_id).2 advert_id).1
            = Except.ok ("Advert " ++ advert_id ++ " cancelled successfully.")
        ∧ (MarketingDeptStaff.cancel_advert
              (MarketingDeptStaff.cancel_advert adverts advert_id).2 advert_id).2
            = (MarketingDeptStaff.cancel_advert adverts advert_id).2 := by
  constructor
  · intro h
    simp [MarketingDeptStaff.cancel_advert, h]
  · intro ad h
    have h1 : MarketingDeptStaff.cancel_advert adverts advert_id
        = (Except.ok ("Advert " ++ advert_id ++ " cancelled successfully."),
           alist_set adverts advert_id { ad with status := "Cancelled" }) := by
      simp [MarketingDeptStaff.cancel_advert, h, Advert.cancel_advert]
    have h2 : alist_lookup (MarketingDeptStaff.cancel_advert adverts advert_id).2 advert_id
        = some { ad with status := "Cancelled" } := by
      rw [h1]
      exact alist_lookup_set_self adverts advert_id _
    refine ⟨h1, h2, ?_, ?_⟩
    · rw [h1]
      simp [MarketingDeptStaff.cancel_advert, alist_lookup_set_self]
    · rw [h1]
      simp [MarketingDeptStaff.cancel_advert, alist_lookup_set_self,
        Advert.cancel_advert, alist_set_set]

/-- Witness for C9: cancelling AD001 in a one-advert store overwrites
its status with Cancelled. -/
theorem C9_cancel_advert_witness :
    MarketingDeptStaff.cancel_advert [("AD001", advert_AD001)] "AD001"
      = (Except.ok ("Advert " ++ "AD001" ++ " cancelled successfully."),
         alist_set [("AD001", advert_AD001)] "AD001"
           { advert_AD001 with status := "Cancelled" }) :=
  ((C9_cancel_advert [("AD001", advert_AD001)] "AD001").2 advert_AD001 rfl).1

/-- Normal form of the append path of `update_advert_in_issue`: a
non-cancelled advert whose id is not yet in the issue's sequence is
appended with status Approved. -/
theorem update_advert_in_issue_append (issues : IssueMap) (advert : Advert)
    (issue_date : String) (h : advert.status ≠ "Cancelled")
    (hnone : ((alist_lookup issues issue_date).getD []).find?
        (fun ad => ad.advert_id == advert.advert_id) = none) :
    Editor.update_advert_in_issue issues advert issue_date =
      (Except.ok (),
       alist_set (if (alist_lookup issues issue_date).isSome then issues
                  else alist_set issues issue_date [])
         issue_date (((alist_lookup issues issue_date).getD [])
                      ++ [{ advert with status := "Approved" }]),
       { advert with status := "Approved" }) := by
  cases hl : alist_lookup issues issue_date with
  | none =>
      simp [Editor.update_advert_in_issue, h, hl, alist_lookup_set_self]
  | some seq =>
      rw [hl] at hnone
      simp only [Option.getD_some] at hnone
      simp [Editor.update_advert_in_issue, h, hl, hnone]

/-- Normal form of the merge path of `update_advert_in_issue`: when an
advert with the same id already sits in the issue's sequence, the first
such entry receives the field-merge and nothing is appended. -/
theorem update_advert_in_issue_merge (issues : IssueMap) (advert : Advert)
    (issue_date : String) (ex : Advert) (h : advert.status ≠ "Cancelled")
    (hsome : ((alist_lookup issues issue_date).getD []).find?
        (fun ad => ad.advert_id == advert.advert_id) = some ex) :
    Editor.update_advert_in_issue issues advert issue_date =
      (Except.ok (),
       alist_set (if (alist_lookup issues issue_date).isSome then issues
                  else alist_set issues issue_date [])
         issue_date
         (update_first ((alist_lookup issues issue_date).getD []) advert.advert_id
           (fun x => x.update_details (some advert.size) (some advert.placement)
              (some advert.publication_date))),
       advert) := by
  cases hl : alist_lookup issues issue_date with
  | none =>
      rw [hl] at hsome
      simp at hsome
  | some seq =>
      rw [hl] at hsome
      simp only [Option.getD_some] at hsome
      simp [Editor.update_advert_in_issue, h, hl, hsome]

/-- C10: a Published advert — a status the `Advert` constructor accepts
directly — whose id is not yet in the given issue's sequence is
accepted by `update_advert_in_issue` (the guard rejects only
Cancelled), appended to that issue's sequence, and its status is set to
Approved. -/
theorem C10_published_advert_accepted (issues : IssueMap) (advert : Advert)
    (issue_date : String) (h : advert.status = "Published")
    (h2 : ((alist_lookup issues issue_date).getD []).find?
        (fun ad => ad.advert_id == advert.advert_id) = none) :
    (Editor.update_advert_in_issue issues advert issue_date).1 = Except.ok ()
    ∧ (Editor.update_advert_in_issue issues advert issue_date).2.2
        = { advert with status := "Approved" }
    ∧ alist_lookup (Editor.update_advert_in_issue issues advert issue_date).2.1 issue_date
        = some (((alist_lookup issues issue_date).getD [])
                 ++ [{ advert with status := "Approved" }]) := by
  have hnc : advert.status ≠ "Cancelled" := by rw [h]; decide
  rw [update_advert_in_issue_append issues advert issue_date hnc h2]
  exact ⟨rfl, rfl, alist_lookup_set_self _ _ _⟩

/-- Witness for C10: placing the directly-constructed Published AD001
advert into an empty issues mapping succeeds, appends it to the issue
of 2025-03-01, and demotes its status to Approved. -/
theorem C10_published_advert_accepted_witness :
    (Editor.update_advert_in_issue [] advert_AD001_published "2025-03-01").1 = Except.ok ()
    ∧ (Editor.update_advert_in_issue [] advert_AD001_published "2025-03-01").2.2
        = { advert_AD001_published with status := "Approved" }
    ∧ alist_lookup (Editor.update_advert_in_issue [] advert_AD001_published "2025-03-01").2.1
          "2025-03-01"
        = some (((alist_lookup ([] : IssueMap) "2025-03-01").getD [])
                 ++ [{ advert_AD001_published with status := "Approved" }]) :=
  C10_published_advert_accepted [] advert_AD001_published "2025-03-01" rfl rfl

/-- C4: for every non-cancelled advert and issue date, if no advert
with the same id is in that issue's sequence then
`update_advert_in_issue` appends the advert with status set to
Approved and the sequence then holds that id exactly once; if such an
advert exists, the first matching entry receives the field-merge of the
given advert's size, placement and publication date, nothing is
appended (the length is unchanged), no entry's status changes, and the
argument advert is returned unmodified. -/
theorem C4_place_or_merge (issues : IssueMap) (advert : Advert) (issue_date : String)
    (h : advert.status ≠ "Cancelled") :
    (((alist_lookup issues issue_date).getD []).find?
        (fun ad => ad.advert_id == advert.advert_id) = none →
      (Editor.update_advert_in_issue issues advert issue_date).1 = Except.ok ()
      ∧ (Editor.update_advert_in_issue issues advert issue_date).2.2
          = { advert with status := "Approved" }
      ∧ alist_lookup (Editor.update_advert_in_issue issues advert issue_date).2.1 issue_date
          = some (((alist_lookup issues issue_date).getD [])
                   ++ [{ advert with status := "Approved" }])
      ∧ (((alist_lookup issues issue_date).getD [])
           ++ [{ advert with status := "Approved" }]).countP
            (fun ad : Advert => ad.advert_id == advert.advert_id) = 1)
    ∧ ∀ ex, ((alist_lookup issues issue_date).getD []).find?
          (fun ad => ad.advert_id == advert.advert_id) = some ex →
        (Editor.update_advert_in_issue issues advert issue_date).1 = Except.ok ()
        ∧ (Editor.update_advert_in_issue issues advert issue_date).2.2 = advert
        ∧ alist_lookup (Editor.update_advert_in_issue issues advert issue_date).2.1 issue_date
            = some (update_first ((alist_lookup issues issue_date).getD [])
                advert.advert_id
                (fun x => x.update_details (some advert.size) (some advert.placement)
                   (some advert.publication_date)))
        ∧ (update_first ((alist_lookup issues issue_date).getD []) advert.advert_id
             (fun x => x.update_details (some advert.size) (some advert.placement)
                (some advert.publication_date))).length
            = ((alist_lookup issues issue_date).getD []).length
        ∧ (update_first ((alist_lookup issues issue_date).getD []) advert.advert_id
             (fun x => x.update_details (some advert.size) (some advert.placement)
                (some advert.publication_date))).map Advert.status
            = ((alist_lookup issues issue_date).getD []).map Advert.status := by
  constructor
  · intro hnone
    rw [update_advert_in_issue_append issues advert issue_date h hnone]
    refine ⟨rfl, rfl, alist_lookup_set_self _ _ _, ?_⟩
    have hzero : ((alist_lookup issues issue_date).getD []).countP
        (fun ad : Advert => ad.advert_id == advert.advert_id) = 0 :=
      List.countP_eq_zero.mpr (fun x hx => by
        simpa using List.find?_eq_none.mp hnone x hx)
    simp [List.countP_append, hzero, List.countP_cons]
  · intro ex hsome
    rw [update_advert_in_issue_merge issues advert issue_date ex h hsome]
    exact ⟨rfl, rfl, alist_lookup_set_self _ _ _, update_first_length _ _ _,
      update_first_map_status _ _ _ (fun a => update_details_status a _ _ _)⟩

/-- Witness for C4: placing the Pending AD001 advert into an empty
issues mapping appends it to the issue of 2025-03-01 with status
Approved, and the sequence then holds its id exactly once. -/
theorem C4_place_or_merge_witness :
    (Editor.update_advert_in_issue [] advert_AD001 "2025-03-01").1 = Except.ok ()
    ∧ (Editor.update_advert_in_issue [] advert_AD001 "2025-03-01").2.2
        = { advert_AD001 with status := "Approved" }
    ∧ alist_lookup (Editor.update_advert_in_issue [] advert_AD001 "2025-03-01").2.1
          "2025-03-01"
        = some (((alist_lookup ([] : IssueMap) "2025-03-01").getD [])
                 ++ [{ advert_AD001 with status := "Approved" }])
    ∧ (((alist_lookup ([] : IssueMap) "2025-03-01").getD [])
         ++ [{ advert_AD001 with status := "Approved" }]).countP
          (fun ad : Advert => ad.advert_id == advert_AD001.advert_id) = 1 :=
  (C4_place_or_merge [] advert_AD001 "2025-03-01" (by decide)).1 rfl

/-- C8: for an id absent from the marketing store, `update_advert`
fails with the not-found error and changes nothing; for a present id it
stores back exactly the field-merge of the supplied arguments — the
advert's id, client name and status are unchanged, each omitted (or
empty) argument leaves its field unchanged, each supplied non-empty
argument overwrites its field, and supplying only a placement mutates
the placement and nothing else. -/
theorem C8_update_only_supplied (adverts : AdvertMap) (advert_id : String)
    (size placement publication_date : Option String) :
    (alist_lookup adverts advert_id = none →
       MarketingDeptStaff.update_advert adverts advert_id size placement publication_date
         = (Except.error "Advert ID does not exist.", adverts))
    ∧ ∀ ad, alist_lookup adverts advert_id = some ad →
        MarketingDeptStaff.update_advert adverts advert_id size placement publication_date
          = (Except.ok ("Advert " ++ advert_id ++ " updated successfully."),
             alist_set adverts advert_id
               (ad.update_details size placement publication_date))
        ∧ (ad.update_details size placement publication_date).advert_id = ad.advert_id
        ∧ (ad.update_details size placement publication_date).client_name = ad.client_name
        ∧ (ad.update_details size placement publication_date).status = ad.status
        ∧ (truthy size = false →
            (ad.update_details size placement publication_date).size = ad.size)
        ∧ (∀ s, size = some s → s ≠ "" →
            (ad.update_details size placement publication_date).size = s)
        ∧ (truthy placement = false →
            (ad.update_details size placement publication_date).placement = ad.placement)
        ∧ (∀ p, placement = some p → p ≠ "" →
            (ad.update_details size placement publication_date).placement = p)
        ∧ (truthy publication_date = false →
            (ad.update_details size placement publication_date).publication_date
              = ad.publication_date)
        ∧ (∀ q, publication_date = some q → q ≠ "" →
            (ad.update_details size placement publication_date).publication_date = q)
        ∧ (size = none → publication_date = none → ∀ p, placement = some p → p ≠ "" →
            ad.update_details size placement publication_date
              = { ad with placement := p }) := by
  constructor
  · intro h
    simp [MarketingDeptStaff.update_advert, h]
  · intro ad h
    refine ⟨by simp [MarketingDeptStaff.update_advert, h],
      update_details_advert_id ad _ _ _, update_details_client_name ad _ _ _,
      update_details_status ad _ _ _, ?_, ?_, ?_, ?_, ?_, ?_, ?_⟩
    · intro hts
      rw [update_details_eq]
      simp [hts]
    · rintro s rfl hs
      rw [update_details_eq]
      simp [truthy, hs]
    · intro htp
      rw [update_details_eq]
      simp [htp]
    · rintro p rfl hp
      rw [update_details_eq]
      simp [truthy, hp]
    · intro htd
      rw [update_details_eq]
      simp [htd]
    · rintro q rfl hq
      rw [update_details_eq]
      simp [truthy, hq]
    · rintro rfl rfl p rfl hp
      rw [update_details_eq]
      simp [truthy, hp]

/-- Witness for C8: updating AD001 with only a placement of Front
Cover replaces the stored advert by one differing in the placement
field alone. -/
theorem C8_update_only_supplied_witness :
    advert_AD001.update_details none (some "Front Cover") none
      = { advert_AD001 with placement := "Front Cover" } :=
  (((C8_update_only_supplied [("AD001", advert_AD001)] "AD001" none (some "Front Cover")
      none).2 advert_AD001 rfl).2.2.2.2.2.2.2.2.2.2) rfl rfl "Front Cover" rfl (by decide)

/-- C7: `create_advert` fails exactly when the advert id is empty, the
client name is empty, the size is outside the enumerated set, the
placement is empty, the publication date fails the YYYY-MM-DD calendar
check, or the id is already in the store; on failure the mapping is
unchanged, and on success the new Pending advert is returned and
appended under its id.  The last conjunct is the worked AD001 example
executed from a fresh store. -/
theorem C7_create_advert (adverts : AdvertMap)
    (advert_id client_name size placement publication_date : String) :
    ((∃ ad, (MarketingDeptStaff.create_advert adverts advert_id client_name size placement
        publication_date).1 = Except.ok ad)
      ↔ ¬ create_advert_invalid adverts advert_id client_name size placement publication_date)
    ∧ (create_advert_invalid adverts advert_id client_name size placement publication_date →
        (MarketingDeptStaff.create_advert adverts advert_id client_name size placement
          publication_date).2 = adverts)
    ∧ (¬ create_advert_invalid adverts advert_id client_name size placement publication_date →
        MarketingDeptStaff.create_advert adverts advert_id client_name size placement
            publication_date
          = (Except.ok ⟨advert_id, client_name, size, placement, publication_date, "Pending"⟩,
             adverts ++ [(advert_id,
               ⟨advert_id, client_name, size, placement, publication_date, "Pending"⟩)]))
    ∧ MarketingDeptStaff.create_advert [] "AD001" "Client A" "Full Page" "Back Cover"
          "2025-01-15"
        = (Except.ok ⟨"AD001", "Client A", "Full Page", "Back Cover", "2025-01-15", "Pending"⟩,
           [("AD001",
             ⟨"AD001", "Client A", "Full Page", "Back Cover", "2025-01-15", "Pending"⟩)]) := by
  have key : ((∃ ad, (MarketingDeptStaff.create_advert adverts advert_id client_name size
        placement publication_date).1 = Except.ok ad)
      ↔ ¬ create_advert_invalid adverts advert_id client_name size placement publication_date)
    ∧ (create_advert_invalid adverts advert_id client_name size placement publication_date →
        (MarketingDeptStaff.create_advert adverts advert_id client_name size placement
          publication_date).2 = adverts)
    ∧ (¬ create_advert_invalid adverts advert_id client_name size placement publication_date →
        MarketingDeptStaff.create_advert adverts advert_id client_name size placement
            publication_date
          = (Except.ok ⟨advert_id, client_name, size, placement, publication_date, "Pending"⟩,
             adverts ++ [(advert_id,
               ⟨advert_id, client_name, size, placement, publication_date, "Pending"⟩)])) := by
    unfold MarketingDeptStaff.create_advert create_advert_invalid
    split_ifs with h1 h2 h3 h4 h5 h6 <;> simp_all
  exact ⟨key.1, key.2.1, key.2.2, by rfl⟩

/-- Witness for C7: the worked AD001 example — creating the advert in
a fresh store succeeds with status Pending. -/
theorem C7_create_advert_witness :
    MarketingDeptStaff.create_advert [] "AD001" "Client A" "Full Page" "Back Cover"
        "2025-01-15"
      = (Except.ok ⟨"AD001", "Client A", "Full Page", "Back Cover", "2025-01-15", "Pending"⟩,
         [("AD001",
           ⟨"AD001", "Client A", "Full Page", "Back Cover", "2025-01-15", "Pending"⟩)]) :=
  (C7_create_advert [] "AD001" "Client A" "Full Page" "Back Cover" "2025-01-15").2.2.1
    (by decide)

/-- C6 is contradicted by the code: the six-digit check of
`ITMagazineStaff.__init__` is `len(str(staff_id)) == 6`, which the
negative five-digit id -12345 passes because the minus sign counts as
a character; with a valid salary, department and empty registry the
construction therefore succeeds and registers -12345, although -12345
is not a 6-digit numeric value. -/
theorem C6_six_digit_check_accepts_negative :
    ITMagazineStaff.init (-12345) 50000 "Marketing" []
      = (Except.ok ⟨-12345, 50000, "Marketing"⟩, [-12345])
    ∧ ¬ (100000 ≤ (-12345 : Int) ∧ (-12345 : Int) ≤ 999999) := by
  exact ⟨by rfl, by decide⟩

end ITMagazine
